import Mathlib

/-!
Verification development for the automation and scheduling engine of
reviewassist-pro.  The definitions below are a shallow embedding of
`src/src/models/automation.py` and `src/src/scheduler.py`.

Modelling conventions:
* Wall-clock timestamps are natural numbers counting minutes; the
  `datetime.utcnow()` calls of the source are modelled by an abstract clock
  stream `c : Nat -> Nat` together with the index `k` of the next unread
  clock value, so that distinct `utcnow()` calls may observe distinct (or
  equal) times.  Review timestamps use `Int` so that window subtraction
  (`now - timedelta(...)`) is exact.
* JSON columns are modelled by the inductive `JsonVal`; JSON dictionaries
  whose specific keys the engine reads (trigger config, threshold config,
  schedule config) are modelled as structures with optional fields,
  mirroring Python's `dict.get(key, default)`.
* External action executors (the bodies behind generate_response,
  send_notification, generate_report) are an injected function returning
  `Except`, mirroring "returns a payload or raises".
-/

namespace ReviewAssist

/-- `WorkflowStatus` enum of automation.py. -/
inductive WorkflowStatus
  | active
  | paused
  | disabled
  | error
deriving DecidableEq, Repr

/-- `TaskStatus` enum of automation.py. -/
inductive TaskStatus
  | pending
  | running
  | completed
  | failed
  | cancelled
deriving DecidableEq, Repr

/-- `TriggerType` enum of automation.py. -/
inductive TriggerType
  | schedule
  | event
  | manual
deriving DecidableEq, Repr

/-- `ActionType` enum of automation.py. -/
inductive ActionType
  | generate_response
  | send_notification
  | generate_report
  | update_status
  | send_email
  | webhook_call
deriving DecidableEq, Repr

/-- A JSON value, modelling the JSON columns of the data model. -/
inductive JsonVal
  | null
  | bool (b : Bool)
  | num (q : ℚ)
  | str (s : String)
  | arr (items : List JsonVal)
  | obj (fields : List (String × JsonVal))
deriving Repr

/-- A row of the `workflow_tasks` table (`WorkflowTask` in automation.py).
`workflow_id` is carried as an `Option` because the scheduler constructs
task objects with `workflow_id=None`; whether the schema admits such a row
is recorded separately in `workflowIdColumnNullable`. -/
structure Task where
  workflow_id : Option Nat
  action_type : ActionType
  action_config : JsonVal
  status : TaskStatus := .pending
  scheduled_at : Nat
  started_at : Option Nat := none
  completed_at : Option Nat := none
  result_data : Option JsonVal := none
  error_message : Option String := none
  retry_count : Nat := 0
  max_retries : Nat := 3
deriving Repr

/-- automation.py line 89: the `workflow_id` column of `workflow_tasks`
is declared with `nullable=False`. -/
def workflowIdColumnNullable : Bool := false

/-- A task row satisfies the declared schema constraint on `workflow_id`
iff the owning-workflow reference is present or the column is nullable. -/
def taskRowSatisfiesSchema (t : Task) : Bool :=
  workflowIdColumnNullable || t.workflow_id.isSome

/-- An external action executor: given an action kind and its config,
either return a result payload or raise (model of the opaque handlers the
engine dispatches to). -/
def Executor : Type := ActionType → JsonVal → Except String JsonVal

/-- First half of `WorkflowEngine._execute_task` (lines 345-347):
mark the task Running and stamp `started_at`. -/
def startTask (t : Task) (now : Nat) : Task :=
  { t with status := .running, started_at := some now }

/-- The `try` body dispatch of `WorkflowEngine._execute_task`
(lines 350-358): `result` starts as `None` and only the
generate_response, send_notification and generate_report kinds have a
handler branch; any other action kind leaves `result = None` and cannot
raise. -/
def dispatchAction (e : Executor) (t : Task) : Except String (Option JsonVal) :=
  match t.action_type with
  | .generate_response => (e .generate_response t.action_config).map some
  | .send_notification => (e .send_notification t.action_config).map some
  | .generate_report => (e .generate_report t.action_config).map some
  | _ => .ok none

/-- `WorkflowEngine._execute_task` (automation.py lines 342-375).
`c` is the abstract clock stream and `k` the index of the next
`utcnow()` read (line 346 reads `c k`, line 362 or 367 reads `c (k+1)`,
and the retry branch at line 373 reads `c (k+2)`).  Returns the final
task row together with the next unread clock index.  Each branch below
is the net effect of the source's sequential field assignments: on
failure the task is first marked Failed with `error_message` and
`completed_at` stamped (lines 365-367), then the retry branch (lines
370-373) increments `retry_count`, resets the status to Pending and
defers `scheduled_at` by 5 minutes — leaving `started_at`,
`completed_at` and `error_message` as just stamped. -/
def executeTask (e : Executor) (c : Nat → Nat) (k : Nat) (t : Task) : Task × Nat :=
  match dispatchAction e (startTask t (c k)) with
  | .ok r =>
      ({ startTask t (c k) with
          status := .completed, result_data := r,
          completed_at := some (c (k+1)) }, k + 2)
  | .error msg =>
      if t.retry_count < t.max_retries then
        ({ startTask t (c k) with
            status := .pending, error_message := some msg,
            completed_at := some (c (k+1)),
            retry_count := t.retry_count + 1,
            scheduled_at := c (k+2) + 5 }, k + 3)
      else
        ({ startTask t (c k) with
            status := .failed, error_message := some msg,
            completed_at := some (c (k+1)) }, k + 2)

/-- One engine operation on a task row: an `_execute_task` call with its
executor, clock stream and clock cursor. -/
structure EngineOp where
  ex : Executor
  clk : Nat → Nat
  cur : Nat

/-- Apply a sequence of `_execute_task` calls to a task row.  These are
the only engine operations that mutate an existing task row (the other
scheduler steps only create or delete rows). -/
def runOps (ops : List EngineOp) (t : Task) : Task :=
  ops.foldl (fun t op => (executeTask op.ex op.clk op.cur t).1) t

/-- One entry of a workflow's `actions` JSON list: a kind plus an optional
kind-specific configuration (`action.get("config", {})`). -/
structure WAction where
  kind : ActionType
  config : Option JsonVal := none
deriving Repr

/-- The trigger-configuration JSON dictionary of a workflow, restricted
to the keys `_calculate_next_execution` reads: `type` and
`interval_minutes`. -/
structure TriggerConfig where
  ty : Option String := none
  interval_minutes : Option Nat := none
deriving Repr

/-- A row of the `workflows` table (`Workflow` in automation.py),
restricted to the columns the engine reads or writes. -/
structure Workflow where
  id : Nat
  status : WorkflowStatus := .active
  trigger_type : TriggerType
  trigger_config : TriggerConfig := {}
  actions : List WAction := []
  conditions : Option JsonVal := none
  max_executions : Option Nat := none
  execution_count : Nat := 0
  last_execution : Option Nat := none
  next_execution : Option Nat := none
deriving Repr

/-- The persistent state `execute_workflow` touches: the workflow rows
and the task rows. -/
structure EngineState where
  workflows : List Workflow
  tasks : List Task
deriving Repr

/-- `WorkflowEngine._should_execute` (automation.py lines 314-325).  The
Python guard is `if workflow.max_executions and workflow.execution_count
>= workflow.max_executions: return False`; by Python truthiness a
`max_executions` of `None` or `0` disables the cap.  The `conditions`
branch is a stub in the source and checks nothing. -/
def shouldExecute (w : Workflow) : Bool :=
  match w.max_executions with
  | none => true
  | some m => decide (m = 0) || decide (w.execution_count < m)

/-- `WorkflowEngine._calculate_next_execution` (automation.py lines
327-340), with `now` the `utcnow()` value it samples: interval triggers
yield `now + interval_minutes` (default 60), cron triggers are stubbed to
`now + 1 day`, anything else yields `None`. -/
def calculateNextExecution (w : Workflow) (now : Nat) : Option Nat :=
  if w.trigger_type = .schedule then
    if w.trigger_config.ty = some "interval" then
      some (now + w.trigger_config.interval_minutes.getD 60)
    else if w.trigger_config.ty = some "cron" then
      some (now + 1440)
    else none
  else none

/-- Task construction inside `execute_workflow` (automation.py lines
292-297): owning workflow set, config snapshotted with `{}` default,
`scheduled_at = utcnow()`, every other column at its declared default. -/
def mkWorkflowTask (wid : Nat) (a : WAction) (now : Nat) : Task :=
  { workflow_id := some wid, action_type := a.kind,
    action_config := a.config.getD (.obj []), scheduled_at := now }

/-- Run `_execute_task` over a list of task rows in order, threading the
clock cursor (the dispatch loops of automation.py line 309-310 and
scheduler.py line 131-134). -/
def executeTasksFrom (e : Executor) (c : Nat → Nat) : Nat → List Task → List Task
  | _, [] => []
  | k, t :: ts =>
      let r := executeTask e c k t
      r.1 :: executeTasksFrom e c r.2 ts

/-- `Workflow.query.get(workflow_id)` (automation.py line 281): the row
with the given primary key, modelled as the first matching row. -/
def findWorkflow (st : EngineState) (wid : Nat) : Option Workflow :=
  st.workflows.find? (fun w => w.id == wid)

/-- The task rows created by the action loop of `execute_workflow`
(automation.py lines 290-299); the i-th creation reads clock index i. -/
def createdTasks (wid : Nat) (w : Workflow) (c : Nat → Nat) : List Task :=
  w.actions.enum.map (fun p => mkWorkflowTask wid p.2 (c p.1))

/-- The execution-tracking update of `execute_workflow` (automation.py
lines 301-304): increment `execution_count`, stamp `last_execution` from
the clock read after the task creations, recompute `next_execution` from
the read after that. -/
def advanceWorkflow (w : Workflow) (c : Nat → Nat) : Workflow :=
  { w with execution_count := w.execution_count + 1,
           last_execution := some (c w.actions.length),
           next_execution := calculateNextExecution w (c (w.actions.length + 1)) }

/-- `WorkflowEngine.execute_workflow` (automation.py lines 278-312).
Fails fast (state unchanged, `false`) when the workflow is missing, not
Active, or `_should_execute` declines.  Otherwise creates one Pending
task per action, updates the workflow's execution tracking, commits,
then runs `_execute_task` on each created task in order (clock cursor
continuing after the two tracking reads). -/
def executeWorkflow (e : Executor) (c : Nat → Nat) (st : EngineState) (wid : Nat) :
    EngineState × Bool :=
  match findWorkflow st wid with
  | none => (st, false)
  | some w =>
      if w.status = .active then
        if shouldExecute w then
          ({ workflows := st.workflows.map
               (fun x => if x.id == wid then advanceWorkflow w c else x),
             tasks := st.tasks ++
               executeTasksFrom e c (w.actions.length + 2) (createdTasks wid w c) },
           true)
        else (st, false)
      else (st, false)

/-- Eligibility predicate of `AutomationScheduler._process_pending_tasks`
(scheduler.py lines 126-129): status Pending and `scheduled_at <= now`. -/
def pendingEligible (now : Nat) (t : Task) : Bool :=
  t.status == .pending && t.scheduled_at ≤ now

/-- The query of `_process_pending_tasks` (scheduler.py lines 126-129):
`filter(status == PENDING, scheduled_at <= now).limit(10)`.  The query
has no `order_by`, so the rows come back in the store's underlying row
order, modelled here as the order of the table list. -/
def selectPendingTasks (table : List Task) (now : Nat) : List Task :=
  (table.filter (pendingEligible now)).take 10

/-- `AutomationScheduler._process_pending_tasks` (scheduler.py lines
121-137): run `_execute_task` on each selected task in selection order,
threading the clock cursor.  Returns the final rows of the selected
tasks. -/
def processPendingTasks (e : Executor) (c : Nat → Nat) (k : Nat)
    (table : List Task) (now : Nat) : List Task :=
  executeTasksFrom e c k (selectPendingTasks table now)

/-- The transaction skeleton of `AutomationScheduler._run_scheduler`
(scheduler.py lines 60-86), with each step abstracted to the write set it
stages on the tick's session (`.ok ws`) or an uncaught exception
(`.error msg`): writes accumulate on one session and nothing is visible
until the single `session.commit()` at line 80; an exception reaches the
handler at line 82-84, which rolls the whole session back, so the staged
writes of every earlier step are discarded and the later steps never
run. -/
def runTickGo {α : Type} : List (Except String (List α)) → List α → List α → List α
  | [], committed, staged => committed ++ staged
  | .ok ws :: rest, committed, staged => runTickGo rest committed (staged ++ ws)
  | .error _ :: _, committed, _ => committed

/-- One tick of `_run_scheduler`: run the five steps in order inside a
single session, committing once at the end, rolling everything back on
the first uncaught step exception. -/
def runTick {α : Type} (steps : List (Except String (List α))) (committed : List α) :
    List α :=
  runTickGo steps committed []

/-- Modelled from the spec words for the per-step transaction claim:
"within one persistence transaction scope per step (each step commits or
rolls back independently so one failing step does not abort the
others)" — every non-failing step's writes are committed, a failing step
contributes nothing. -/
def runTickPerStep {α : Type} (steps : List (Except String (List α)))
    (committed : List α) : List α :=
  committed ++ (steps.filterMap (fun s => match s with
    | .ok ws => some ws
    | .error _ => none)).flatten

/-- A row of the `scheduled_reports` table, restricted to the columns the
scheduler reads or writes.  The `schedule_config` JSON dictionary is
modelled by the one key `_calculate_next_report_time` reads,
`interval_hours`. -/
structure ScheduledReport where
  id : Nat
  is_active : Bool := true
  report_type : String
  report_format : String
  filters : Option JsonVal := none
  schedule_type : String
  interval_hours : Option Nat := none
  delivery_method : String := "download"
  delivery_config : Option JsonVal := none
  last_generated : Option Nat := none
  next_generation : Option Nat := none
  generation_count : Nat := 0
deriving Repr

/-- Due filter of `_check_scheduled_reports` (scheduler.py lines
144-147): active and `next_generation <= now` (a SQL comparison, false
when `next_generation` is NULL). -/
def dueReport (now : Nat) (r : ScheduledReport) : Bool :=
  r.is_active && (match r.next_generation with
    | some t => t ≤ now
    | none => false)

/-- The `action_config` dictionary built for a report-generation task
(scheduler.py lines 157-163): the report's parameters, copied. -/
def reportTaskConfig (r : ScheduledReport) : JsonVal :=
  .obj [("report_type", .str r.report_type),
        ("format", .str r.report_format),
        ("filters", r.filters.getD .null),
        ("delivery_method", .str r.delivery_method),
        ("delivery_config", r.delivery_config.getD .null)]

/-- The task object built by `_check_scheduled_reports` (scheduler.py
lines 154-165): `workflow_id=None` ("Not associated with a specific
workflow"), action kind generate_report, config copied from the report,
`scheduled_at = now`, all other columns at their defaults.  (The source
passes the raw string "generate_report" for the enum column.) -/
def mkReportTask (r : ScheduledReport) (now : Nat) : Task :=
  { workflow_id := none, action_type := .generate_report,
    action_config := reportTaskConfig r, scheduled_at := now }

/-- `AutomationScheduler._calculate_next_report_time` (scheduler.py lines
305-315), with `now` the `utcnow()` it samples: interval schedules yield
`now + interval_hours` (default 24) hours, cron schedules are stubbed to
`now + 1 day`, anything else `None`. -/
def calculateNextReportTime (r : ScheduledReport) (now : Nat) : Option Nat :=
  if r.schedule_type = "interval" then some (now + 60 * r.interval_hours.getD 24)
  else if r.schedule_type = "cron" then some (now + 1440)
  else none

/-- Per-report body of `_check_scheduled_reports` (scheduler.py lines
149-174): stage the unlinked task and update the report's tracking
columns. -/
def generateDueReport (r : ScheduledReport) (now : Nat) : ScheduledReport × Task :=
  ({ r with last_generated := some now,
            generation_count := r.generation_count + 1,
            next_generation := calculateNextReportTime r now },
   mkReportTask r now)

/-- `AutomationScheduler._check_scheduled_reports` (scheduler.py lines
139-177): for every due report, stage an unlinked generate_report task
and update the report row.  Returns the updated report table and the
staged tasks in table order. -/
def checkScheduledReports (reports : List ScheduledReport) (now : Nat) :
    List ScheduledReport × List Task :=
  ((reports.map fun r => if dueReport now r then (generateDueReport r now).1 else r),
   (reports.filter (dueReport now)).map fun r => (generateDueReport r now).2)

/-- A row of the `automation_rules` table, restricted to the columns the
rule engine reads or writes. -/
structure AutomationRule where
  id : Nat
  is_active : Bool := true
  trigger_event : String
  conditions : Option JsonVal := none
  cooldown_minutes : Nat := 0
  last_triggered : Option Nat := none
  trigger_count : Nat := 0
  priority : Int := 100
deriving Repr

/-- Stable insertion of a rule into a priority-sorted list: the new rule
goes after every already-listed rule of strictly smaller priority and
before rules of equal priority (the new rule stands earlier in the
original row order, preserving stability). -/
def insertByPriority (r : AutomationRule) : List AutomationRule → List AutomationRule
  | [] => [r]
  | x :: xs =>
      if x.priority < r.priority then x :: insertByPriority r xs
      else r :: x :: xs

/-- The `ORDER BY priority` of the rule query (automation.py line 405):
a stable sort on `priority` alone — rows of equal priority keep the
store's underlying row order, because the query requests no further
sort key. -/
def orderByPriority : List AutomationRule → List AutomationRule
  | [] => []
  | r :: rs => insertByPriority r (orderByPriority rs)

/-- The rule query of `AutomationRuleEngine.trigger_event` (automation.py
lines 402-405): active rules whose `trigger_event` matches, ordered by
priority. -/
def matchingRules (rules : List AutomationRule) (eventType : String) :
    List AutomationRule :=
  orderByPriority (rules.filter fun r => r.is_active && r.trigger_event == eventType)

/-- `AutomationRuleEngine._should_trigger` (automation.py lines 416-432),
with `now` the `utcnow()` it samples: blocked only when
`cooldown_minutes > 0`, `last_triggered` is set and the cooldown window
has not elapsed; the `conditions` branch is a stub that always accepts. -/
def shouldTrigger (r : AutomationRule) (now : Nat) : Bool :=
  match r.last_triggered with
  | some lt =>
      if 0 < r.cooldown_minutes then decide (lt + r.cooldown_minutes ≤ now) else true
  | none => true

/-- `AutomationRuleEngine._execute_rule` (automation.py lines 434-445):
stamp `last_triggered`, bump `trigger_count` (the per-action loop is a
stub). -/
def executeRule (r : AutomationRule) (now : Nat) : AutomationRule :=
  { r with last_triggered := some now, trigger_count := r.trigger_count + 1 }

/-- The per-rule loop of `trigger_event` (automation.py lines 409-412):
walk the priority-ordered rules, fire each one that passes
`_should_trigger`, collecting the fired rows in processing order.  The
i-th fired rule reads clock index `k + i`, so an earlier position in the
result received an earlier `utcnow()` read. -/
def fireRules (c : Nat → Nat) : Nat → List AutomationRule → List AutomationRule
  | _, [] => []
  | k, r :: rs =>
      if shouldTrigger r (c k) then
        executeRule r (c k) :: fireRules c (k+1) rs
      else fireRules c k rs

/-- `AutomationRuleEngine.trigger_event` (automation.py lines 399-414):
returns the list of fired (and updated) rules in processing order. -/
def triggerEvent (c : Nat → Nat) (rules : List AutomationRule) (eventType : String) :
    List AutomationRule :=
  fireRules c 0 (matchingRules rules eventType)

/-- A row of the `reviews` table, restricted to what the alert metrics
read.  `created_at` is an integer timestamp (minutes) so that window
subtraction is exact. -/
structure Review where
  created_at : Int
  sentiment : String
  rating : ℚ
deriving Repr

/-- The `threshold_config` JSON dictionary of an alert rule, restricted
to the keys `_evaluate_alert_rule` reads. -/
structure ThresholdConfig where
  drop_threshold : Option ℚ := none
  volume_threshold : Option ℚ := none
  negative_ratio_threshold : Option ℚ := none
deriving Repr

/-- A row of the `alert_rules` table, restricted to the columns the
evaluation path reads. -/
structure AlertRule where
  id : Nat
  is_active : Bool := true
  metric_type : String
  threshold_config : ThresholdConfig := {}
  last_triggered : Option Nat := none
  trigger_count : Nat := 0
  last_check : Option Nat := none
deriving Repr

/-- Reviews with `created_at >= start` (the window filters of the metric
queries in scheduler.py). -/
def reviewsSince (reviews : List Review) (start : Int) : List Review :=
  reviews.filter fun r => start ≤ r.created_at

/-- `AutomationScheduler._get_recent_average_rating` (scheduler.py lines
265-275): mean rating over `[now - offsetDays - days, now - offsetDays]`.
The source wraps the SQL average in `float(result) if result else None`,
so both an empty window and an average of exactly 0 yield `None`. -/
def recentAverageRating (reviews : List Review) (now : Int) (days offsetDays : Nat) :
    Option ℚ :=
  let endT : Int := now - offsetDays * 1440
  let startT : Int := endT - days * 1440
  let sel := reviews.filter fun r => startT ≤ r.created_at && r.created_at ≤ endT
  if sel.length = 0 then none
  else
    let avg := (sel.map Review.rating).sum / (sel.length : ℚ)
    if avg = 0 then none else some avg

/-- `AutomationScheduler._get_recent_review_count` (scheduler.py lines
277-285). -/
def recentReviewCount (reviews : List Review) (now : Int) (hours : Nat) : Nat :=
  (reviewsSince reviews (now - hours * 60)).length

/-- `AutomationScheduler._get_recent_negative_ratio` (scheduler.py lines
287-303): the share of reviews with sentiment "Negative" among reviews
of the last `hours` hours; `0` when the window is empty. -/
def recentNegativeRatio (reviews : List Review) (now : Int) (hours : Nat) : ℚ :=
  let window := reviewsSince reviews (now - hours * 60)
  if window.length = 0 then 0
  else ((window.filter fun r => r.sentiment == "Negative").length : ℚ) /
    (window.length : ℚ)

/-- `AutomationScheduler._evaluate_alert_rule` (scheduler.py lines
227-263): dispatch on `metric_type`; thresholds come from
`threshold_config.get(key, default)`; unknown metric kinds never fire. -/
def evaluateAlertRule (rule : AlertRule) (reviews : List Review) (now : Int) : Bool :=
  if rule.metric_type = "rating_drop" then
    match recentAverageRating reviews now 1 0, recentAverageRating reviews now 7 1 with
    | some recentAvg, some previousAvg =>
        decide (rule.threshold_config.drop_threshold.getD (1/2) ≤ previousAvg - recentAvg)
    | _, _ => false
  else if rule.metric_type = "review_volume" then
    decide (rule.threshold_config.volume_threshold.getD 10 ≤
      (recentReviewCount reviews now 1 : ℚ))
  else if rule.metric_type = "negative_sentiment" then
    decide (rule.threshold_config.negative_ratio_threshold.getD (3/10) ≤
      recentNegativeRatio reviews now 24)
  else false

/-! ## Theorems -/

/-- Equation for `_execute_task` when the dispatched action succeeds. -/
lemma executeTask_ok_eq (e : Executor) (c : Nat → Nat) (k : Nat) (t : Task)
    (r : Option JsonVal) (hd : dispatchAction e (startTask t (c k)) = .ok r) :
    executeTask e c k t =
      ({ t with status := .completed, started_at := some (c k),
                completed_at := some (c (k+1)), result_data := r }, k + 2) := by
  simp only [executeTask]
  rw [hd]
  rfl

/-- Equation for `_execute_task` when the action raises and the retry
budget is not exhausted. -/
lemma executeTask_retry_eq (e : Executor) (c : Nat → Nat) (k : Nat) (t : Task)
    (msg : String) (hd : dispatchAction e (startTask t (c k)) = .error msg)
    (hr : t.retry_count < t.max_retries) :
    executeTask e c k t =
      ({ t with status := .pending, started_at := some (c k),
                completed_at := some (c (k+1)), error_message := some msg,
                retry_count := t.retry_count + 1,
                scheduled_at := c (k+2) + 5 }, k + 3) := by
  simp only [executeTask]
  rw [hd]
  show (if t.retry_count < t.max_retries then _ else _) = _
  rw [if_pos hr]
  rfl

/-- Equation for `_execute_task` when the action raises and the retry
budget is exhausted. -/
lemma executeTask_exhaust_eq (e : Executor) (c : Nat → Nat) (k : Nat) (t : Task)
    (msg : String) (hd : dispatchAction e (startTask t (c k)) = .error msg)
    (hr : ¬ t.retry_count < t.max_retries) :
    executeTask e c k t =
      ({ t with status := .failed, started_at := some (c k),
                completed_at := some (c (k+1)),
                error_message := some msg }, k + 2) := by
  simp only [executeTask]
  rw [hd]
  show (if t.retry_count < t.max_retries then _ else _) = _
  rw [if_neg hr]
  rfl

/-- A single `_execute_task` call on a task with exhausted retries keeps
the budget exhausted and never ends Pending: the success branch ends
Completed and the failure branch cannot take the retry path. -/
lemma executeTask_exhausted_step (e : Executor) (c : Nat → Nat) (k : Nat) (t : Task)
    (h : t.max_retries ≤ t.retry_count) :
    (executeTask e c k t).1.max_retries ≤ (executeTask e c k t).1.retry_count
    ∧ (executeTask e c k t).1.status ≠ .pending := by
  cases hd : dispatchAction e (startTask t (c k)) with
  | ok r =>
    rw [executeTask_ok_eq e c k t r hd]
    exact ⟨h, fun hcon => TaskStatus.noConfusion hcon⟩
  | error msg =>
    have hr : ¬ t.retry_count < t.max_retries := by omega
    rw [executeTask_exhaust_eq e c k t msg hd hr]
    exact ⟨h, fun hcon => TaskStatus.noConfusion hcon⟩

/-- No sequence of `_execute_task` calls returns a retry-exhausted,
non-Pending task to Pending. -/
lemma runOps_exhausted (ops : List EngineOp) (t : Task)
    (h : t.max_retries ≤ t.retry_count) (h0 : t.status ≠ .pending) :
    (runOps ops t).status ≠ .pending := by
  induction ops generalizing t with
  | nil => exact h0
  | cons op rest ih =>
    have hstep := executeTask_exhausted_step op.ex op.clk op.cur t h
    simpa [runOps] using ih _ hstep.1 hstep.2

/-- Claim C1: every task is created with `retry_count <= max_retries`,
every `_execute_task` call preserves that bound, and a task whose
`retry_count` equals `max_retries` that fails again ends Failed and is
never brought back to Pending by any further sequence of engine task
operations. -/
theorem retry_bound_and_permanent_failure
    (e : Executor) (c : Nat → Nat) (k : Nat) (t : Task)
    (h : t.retry_count ≤ t.max_retries) :
    (∀ wid a now, (mkWorkflowTask wid a now).retry_count ≤
        (mkWorkflowTask wid a now).max_retries)
    ∧ (executeTask e c k t).1.retry_count ≤ (executeTask e c k t).1.max_retries
    ∧ (t.retry_count = t.max_retries →
        ∀ msg, dispatchAction e (startTask t (c k)) = .error msg →
          (executeTask e c k t).1.status = .failed
          ∧ ∀ ops : List EngineOp,
              (runOps ops (executeTask e c k t).1).status ≠ .pending) := by
  refine ⟨fun wid a now => Nat.zero_le _, ?_, ?_⟩
  · cases hd : dispatchAction e (startTask t (c k)) with
    | ok r => rw [executeTask_ok_eq e c k t r hd]; exact h
    | error msg =>
      by_cases hr : t.retry_count < t.max_retries
      · rw [executeTask_retry_eq e c k t msg hd hr]; exact hr
      · rw [executeTask_exhaust_eq e c k t msg hd hr]; exact h
  · intro heq msg hd
    have hr : ¬ t.retry_count < t.max_retries := by omega
    rw [executeTask_exhaust_eq e c k t msg hd hr]
    refine ⟨rfl, fun ops => runOps_exhausted ops _ ?_ ?_⟩
    · show t.max_retries ≤ t.retry_count
      omega
    · show TaskStatus.failed ≠ .pending
      exact fun hcon => TaskStatus.noConfusion hcon

/-- Concrete instance for the claim-C1 theorem: a task with
`retry_count = max_retries = 3` whose action raises. -/
def exhaustedTask : Task :=
  { workflow_id := some 1, action_type := .generate_response,
    action_config := .null, scheduled_at := 0, retry_count := 3 }

/-- An executor whose handlers always raise (claim-C1 instance). -/
def failingExec : Executor := fun _ _ => .error "boom"

/-- Witness for claim C1 at a concrete input: the exhausted failed task
stays non-Pending across a further engine operation. -/
theorem retry_bound_and_permanent_failure_holds :
    (runOps [⟨failingExec, fun i => i, 0⟩]
        (executeTask failingExec (fun i => i) 0 exhaustedTask).1).status ≠ .pending :=
  ((retry_bound_and_permanent_failure failingExec (fun i => i) 0 exhaustedTask
      (by decide)).2.2 (by decide) "boom" rfl).2 [⟨failingExec, fun i => i, 0⟩]

/-- Claim C2 (amended): when the action raises and `retry_count <
max_retries`, the final row is Pending with `retry_count` incremented,
`scheduled_at` deferred to the retry-time clock read plus 5 minutes and
the error message stored — and `started_at` and `completed_at` keep the
values just stamped (the failure time); they are not cleared. -/
theorem executeTask_failure_retry_fields
    (e : Executor) (c : Nat → Nat) (k : Nat) (t : Task) (msg : String)
    (hd : dispatchAction e (startTask t (c k)) = .error msg)
    (hr : t.retry_count < t.max_retries) :
    executeTask e c k t =
      ({ t with status := .pending, started_at := some (c k),
                completed_at := some (c (k+1)), error_message := some msg,
                retry_count := t.retry_count + 1,
                scheduled_at := c (k+2) + 5 }, k + 3) :=
  executeTask_retry_eq e c k t msg hd hr

/-- Concrete instance for claim C2: a fresh task (retry_count 0) whose
action raises. -/
def retryTask : Task :=
  { workflow_id := some 1, action_type := .generate_response,
    action_config := .null, scheduled_at := 0 }

/-- An executor whose handlers always raise (claim-C2 instance). -/
def failingExecR : Executor := fun _ _ => .error "boom"

/-- Claim C2 counterexample: after a retried failure the task is Pending
with `retry_count = 1`, yet `completed_at` still holds the failure time
and `started_at` is still set — neither is cleared to null as the claim
states. -/
theorem retried_failure_keeps_completed_at :
    (executeTask failingExecR (fun i => i) 0 retryTask).1.status = .pending
    ∧ (executeTask failingExecR (fun i => i) 0 retryTask).1.retry_count = 1
    ∧ (executeTask failingExecR (fun i => i) 0 retryTask).1.completed_at = some 1
    ∧ (executeTask failingExecR (fun i => i) 0 retryTask).1.started_at = some 0 := by
  decide

/-- Witness for the amended claim-C2 theorem at a concrete input. -/
theorem executeTask_failure_retry_fields_holds :
    executeTask failingExecR (fun i => i) 0 retryTask =
      ({ retryTask with
          status := .pending, started_at := some 0,
          completed_at := some 1, error_message := some "boom",
          retry_count := 1, scheduled_at := 7 }, 3) :=
  executeTask_failure_retry_fields failingExecR (fun i => i) 0 retryTask "boom" rfl
    (by decide)

/-- Claim C10: a task whose action kind has no handler branch
(update_status, send_email or webhook_call) goes Pending, Running,
Completed with `result_data = none` and `completed_at` stamped, without
the executor ever being consulted; it cannot fail and cannot enter the
retry path. -/
theorem unhandled_action_kind_completes
    (e : Executor) (c : Nat → Nat) (k : Nat) (t : Task)
    (hp : t.status = .pending)
    (h : t.action_type = .update_status ∨ t.action_type = .send_email ∨
         t.action_type = .webhook_call) :
    (startTask t (c k)).status = .running
    ∧ dispatchAction e (startTask t (c k)) = .ok none
    ∧ executeTask e c k t =
        ({ t with status := .completed, started_at := some (c k),
                  completed_at := some (c (k+1)), result_data := none }, k + 2)
    ∧ (executeTask e c k t).1.retry_count = t.retry_count := by
  rcases t with ⟨wf, act, cfg, st, sch, sa, ca, rd, em, rc, mr⟩
  rcases h with h | h | h <;> subst h <;> exact ⟨rfl, rfl, rfl, rfl⟩

/-- Concrete instance for claim C10: an update_status task run against
an executor that would raise if it were ever consulted. -/
def unhandledTask : Task :=
  { workflow_id := none, action_type := .update_status,
    action_config := .null, scheduled_at := 0 }

/-- Witness for the claim-C10 theorem at a concrete input. -/
theorem unhandled_action_kind_completes_holds :
    executeTask (fun _ _ => .error "x") (fun i => i) 0 unhandledTask =
      ({ unhandledTask with
          status := .completed, started_at := some 0,
          completed_at := some 1, result_data := none }, 2) :=
  (unhandled_action_kind_completes (fun _ _ => .error "x") (fun i => i) 0 unhandledTask
    rfl (Or.inl rfl)).2.2.1

/-- Equation: `execute_workflow` on a missing workflow id. -/
lemma executeWorkflow_none_eq (e : Executor) (c : Nat → Nat) (st : EngineState)
    (wid : Nat) (hf : findWorkflow st wid = none) :
    executeWorkflow e c st wid = (st, false) := by
  simp only [executeWorkflow]
  rw [hf]

/-- Equation: `execute_workflow` on a workflow that is not Active. -/
lemma executeWorkflow_notActive_eq (e : Executor) (c : Nat → Nat) (st : EngineState)
    (wid : Nat) (w : Workflow) (hf : findWorkflow st wid = some w)
    (ha : ¬ w.status = .active) :
    executeWorkflow e c st wid = (st, false) := by
  simp only [executeWorkflow]
  rw [hf]
  show (if w.status = .active then _ else _) = _
  rw [if_neg ha]

/-- Equation: `execute_workflow` when `_should_execute` declines. -/
lemma executeWorkflow_declined_eq (e : Executor) (c : Nat → Nat) (st : EngineState)
    (wid : Nat) (w : Workflow) (hf : findWorkflow st wid = some w)
    (ha : w.status = .active) (hs : shouldExecute w = false) :
    executeWorkflow e c st wid = (st, false) := by
  simp only [executeWorkflow]
  rw [hf]
  show (if w.status = .active then _ else _) = _
  rw [if_pos ha]
  show (if shouldExecute w = true then _ else _) = _
  rw [hs]
  simp

/-- Equation: `execute_workflow` on an eligible workflow. -/
lemma executeWorkflow_success_eq (e : Executor) (c : Nat → Nat) (st : EngineState)
    (wid : Nat) (w : Workflow) (hf : findWorkflow st wid = some w)
    (ha : w.status = .active) (hs : shouldExecute w = true) :
    executeWorkflow e c st wid =
      ({ workflows := st.workflows.map
           (fun x => if x.id == wid then advanceWorkflow w c else x),
         tasks := st.tasks ++
           executeTasksFrom e c (w.actions.length + 2) (createdTasks wid w c) },
       true) := by
  simp only [executeWorkflow]
  rw [hf]
  show (if w.status = .active then _ else _) = _
  rw [if_pos ha]
  show (if shouldExecute w = true then _ else _) = _
  rw [hs]
  simp

/-- A row found by primary-key lookup has that id. -/
lemma findWorkflow_id (st : EngineState) (wid : Nat) (w : Workflow)
    (hf : findWorkflow st wid = some w) : w.id = wid := by
  simp only [findWorkflow] at hf
  simpa using List.find?_some hf

/-- Replacing the rows with a given id and looking that id up again finds
the replacement (helper for the post-state of `execute_workflow`). -/
lemma find?_replace (ws : List Workflow) (wid : Nat) (w1 : Workflow)
    (h : w1.id = wid) :
    (ws.map (fun x => if x.id == wid then w1 else x)).find? (fun x => x.id == wid) =
      (ws.find? (fun x => x.id == wid)).map (fun _ => w1) := by
  induction ws with
  | nil => rfl
  | cons x xs ih =>
    by_cases hx : x.id = wid
    · simp [List.find?_cons, hx, h]
    · have hxb : (x.id == wid) = false := beq_eq_false_iff_ne.mpr hx
      simp only [List.map_cons, hxb, Bool.false_eq_true, if_false]
      rw [List.find?_cons_of_neg _ (by simp [hxb]),
          List.find?_cons_of_neg _ (by simp [hxb])]
      exact ih

/-- Primary-key lookup after a successful `execute_workflow` finds the
advanced workflow row. -/
lemma findWorkflow_after_success (e : Executor) (c : Nat → Nat) (st : EngineState)
    (wid : Nat) (w : Workflow) (hf : findWorkflow st wid = some w)
    (ha : w.status = .active) (hs : shouldExecute w = true) :
    findWorkflow (executeWorkflow e c st wid).1 wid = some (advanceWorkflow w c) := by
  rw [executeWorkflow_success_eq e c st wid w hf ha hs]
  have hid : w.id = wid := findWorkflow_id st wid w hf
  show (st.workflows.map (fun x => if x.id == wid then advanceWorkflow w c else x)).find?
      (fun x => x.id == wid) = some (advanceWorkflow w c)
  rw [find?_replace st.workflows wid (advanceWorkflow w c) hid]
  simp only [findWorkflow] at hf
  rw [hf]
  rfl

/-- `_should_execute` declines when a nonzero cap is reached. -/
lemma shouldExecute_cap_reached (w : Workflow) (m : Nat)
    (hm : w.max_executions = some m) (h0 : m ≠ 0)
    (hc : m ≤ w.execution_count) : shouldExecute w = false := by
  simp only [shouldExecute]
  rw [hm]
  simp only [Bool.or_eq_false_iff, decide_eq_false_iff_not]
  omega

/-- `_should_execute` accepts while a nonzero cap is unreached. -/
lemma shouldExecute_below_cap (w : Workflow) (m : Nat)
    (hm : w.max_executions = some m) (hlt : w.execution_count < m) :
    shouldExecute w = true := by
  simp only [shouldExecute]
  rw [hm]
  simp [hlt]

/-- A true `_should_execute` under a nonzero cap means the counter is
strictly below the cap. -/
lemma shouldExecute_true_elim (w : Workflow) (m : Nat)
    (hm : w.max_executions = some m) (h0 : m ≠ 0)
    (hs : shouldExecute w = true) : w.execution_count < m := by
  simp only [shouldExecute] at hs
  rw [hm] at hs
  simp only [Bool.or_eq_true, decide_eq_true_eq] at hs
  omega

/-- Executing a batch of tasks yields one final row per task. -/
lemma executeTasksFrom_length (e : Executor) (c : Nat → Nat) (k : Nat)
    (ts : List Task) : (executeTasksFrom e c k ts).length = ts.length := by
  induction ts generalizing k with
  | nil => rfl
  | cons t rest ih => simp [executeTasksFrom, ih]

/-- One task row is created per configured action. -/
lemma createdTasks_length (wid : Nat) (w : Workflow) (c : Nat → Nat) :
    (createdTasks wid w c).length = w.actions.length := by
  simp [createdTasks]

/-- An executor whose handlers always succeed with a null payload. -/
def okExec : Executor := fun _ _ => .ok .null

/-- Claim C3 (amended): with a positive execution cap, `execute_workflow`
returns false with no side effect when the workflow is missing, not
Active, or the cap is reached; while the counter is within the cap it
stays within it after the call; and with cap 1 starting from counter 0
the first call returns true creating exactly one task per action while
an immediately following second call is a strict no-op.  (A cap of 0 is
disabled by Python truthiness; see the counterexample.) -/
theorem execution_cap_enforced
    (e : Executor) (c : Nat → Nat) (st : EngineState) (wid : Nat) :
    (findWorkflow st wid = none → executeWorkflow e c st wid = (st, false))
    ∧ (∀ w, findWorkflow st wid = some w → w.status ≠ .active →
        executeWorkflow e c st wid = (st, false))
    ∧ (∀ w m, findWorkflow st wid = some w → w.max_executions = some m → m ≠ 0 →
        m ≤ w.execution_count → executeWorkflow e c st wid = (st, false))
    ∧ (∀ w m, findWorkflow st wid = some w → w.max_executions = some m → m ≠ 0 →
        w.execution_count ≤ m →
        ∀ w1, findWorkflow (executeWorkflow e c st wid).1 wid = some w1 →
          w1.execution_count ≤ m)
    ∧ (∀ w, findWorkflow st wid = some w → w.status = .active →
        w.max_executions = some 1 → w.execution_count = 0 →
        (executeWorkflow e c st wid).2 = true
        ∧ (executeWorkflow e c st wid).1.tasks.length
            = st.tasks.length + w.actions.length
        ∧ executeWorkflow e c (executeWorkflow e c st wid).1 wid
            = ((executeWorkflow e c st wid).1, false)) := by
  refine ⟨fun hf => executeWorkflow_none_eq e c st wid hf,
          fun w hf ha => executeWorkflow_notActive_eq e c st wid w hf ha,
          ?_, ?_, ?_⟩
  · intro w m hf hm h0 hcap
    by_cases ha : w.status = .active
    · exact executeWorkflow_declined_eq e c st wid w hf ha
        (shouldExecute_cap_reached w m hm h0 hcap)
    · exact executeWorkflow_notActive_eq e c st wid w hf ha
  · intro w m hf hm h0 hle w1 hf1
    by_cases ha : w.status = .active
    · by_cases hs : shouldExecute w = true
      · rw [findWorkflow_after_success e c st wid w hf ha hs] at hf1
        injection hf1 with h2
        subst h2
        have hlt := shouldExecute_true_elim w m hm h0 hs
        show w.execution_count + 1 ≤ m
        omega
      · have hs0 : shouldExecute w = false := by simpa using hs
        have hff : findWorkflow st wid = some w1 := by
          rw [executeWorkflow_declined_eq e c st wid w hf ha hs0] at hf1
          exact hf1
        rw [hf] at hff
        injection hff with h2
        subst h2
        omega
    · have hff : findWorkflow st wid = some w1 := by
        rw [executeWorkflow_notActive_eq e c st wid w hf ha] at hf1
        exact hf1
      rw [hf] at hff
      injection hff with h2
      subst h2
      omega
  · intro w hf ha hm1 hc0
    have hs : shouldExecute w = true :=
      shouldExecute_below_cap w 1 hm1 (by omega)
    have hsucc := executeWorkflow_success_eq e c st wid w hf ha hs
    refine ⟨by rw [hsucc], ?_, ?_⟩
    · rw [hsucc]
      simp [executeTasksFrom_length, createdTasks_length]
    · have hf1 : findWorkflow (executeWorkflow e c st wid).1 wid
          = some (advanceWorkflow w c) :=
        findWorkflow_after_success e c st wid w hf ha hs
      have ha1 : (advanceWorkflow w c).status = .active := ha
      have hs1 : shouldExecute (advanceWorkflow w c) = false := by
        refine shouldExecute_cap_reached _ 1 hm1 (by omega) ?_
        show 1 ≤ w.execution_count + 1
        omega
      exact executeWorkflow_declined_eq e c (executeWorkflow e c st wid).1 wid _
        hf1 ha1 hs1

/-- Concrete instance refuting claim C3 as stated: a workflow whose
execution cap is set to 0. -/
def capZeroWorkflow : Workflow :=
  { id := 1, trigger_type := .manual, max_executions := some 0 }

/-- State holding only the cap-0 workflow. -/
def capZeroState : EngineState := { workflows := [capZeroWorkflow], tasks := [] }

/-- Claim C3 counterexample: the cap-0 workflow has already reached its
cap (0 <= 0), yet `execute_workflow` returns true and raises the counter
to 1 > 0 — Python truthiness treats a cap of 0 as no cap at all. -/
theorem execution_cap_zero_cex :
    capZeroWorkflow.max_executions = some 0
    ∧ capZeroWorkflow.execution_count = 0
    ∧ (executeWorkflow okExec (fun i => i) capZeroState 1).2 = true
    ∧ ((executeWorkflow okExec (fun i => i) capZeroState 1).1.workflows.map
        Workflow.execution_count) = [1] := by
  decide

/-- Concrete instance for the amended claim-C3 theorem: cap 1, one
action, counter 0. -/
def idemWorkflow : Workflow :=
  { id := 1, trigger_type := .manual, actions := [{ kind := .send_notification }],
    max_executions := some 1 }

/-- State holding only the cap-1 workflow. -/
def idemState : EngineState := { workflows := [idemWorkflow], tasks := [] }

/-- Witness for the amended claim-C3 theorem at a concrete input: the
first call succeeds creating one task, the second call is a no-op. -/
theorem execution_cap_enforced_holds :
    (executeWorkflow okExec (fun i => i) idemState 1).2 = true
    ∧ (executeWorkflow okExec (fun i => i) idemState 1).1.tasks.length
        = idemState.tasks.length + idemWorkflow.actions.length
    ∧ executeWorkflow okExec (fun i => i)
        (executeWorkflow okExec (fun i => i) idemState 1).1 1
        = ((executeWorkflow okExec (fun i => i) idemState 1).1, false) :=
  (execution_cap_enforced okExec (fun i => i) idemState 1).2.2.2.2
    idemWorkflow rfl rfl rfl rfl

/-- Claim C4 (amended): for an Active, eligible workflow with an
interval trigger of 60 minutes, a successful `execute_workflow` stores
`last_execution` from one `utcnow()` read and `next_execution` as the
NEXT `utcnow()` read plus 60 minutes; the two agree as
`next_execution = last_execution + 60` exactly when the clock does not
advance between the two reads. -/
theorem interval_next_execution
    (e : Executor) (c : Nat → Nat) (st : EngineState) (wid : Nat) (w : Workflow)
    (hf : findWorkflow st wid = some w) (ha : w.status = .active)
    (hs : shouldExecute w = true) (ht : w.trigger_type = .schedule)
    (hc : w.trigger_config = { ty := some "interval", interval_minutes := some 60 }) :
    (executeWorkflow e c st wid).2 = true
    ∧ findWorkflow (executeWorkflow e c st wid).1 wid = some (advanceWorkflow w c)
    ∧ (advanceWorkflow w c).last_execution = some (c w.actions.length)
    ∧ (advanceWorkflow w c).next_execution = some (c (w.actions.length + 1) + 60)
    ∧ (c (w.actions.length + 1) = c w.actions.length →
        (advanceWorkflow w c).next_execution = some (c w.actions.length + 60)) := by
  have hsucc := executeWorkflow_success_eq e c st wid w hf ha hs
  refine ⟨by rw [hsucc], findWorkflow_after_success e c st wid w hf ha hs, rfl, ?_, ?_⟩
  · show calculateNextExecution w (c (w.actions.length + 1))
      = some (c (w.actions.length + 1) + 60)
    simp [calculateNextExecution, ht, hc]
  · intro hck
    show calculateNextExecution w (c (w.actions.length + 1))
      = some (c w.actions.length + 60)
    rw [hck]
    simp [calculateNextExecution, ht, hc]

/-- Concrete instance for claim C4: an Active workflow with a 60-minute
interval trigger and no actions. -/
def intervalWorkflow : Workflow :=
  { id := 1, trigger_type := .schedule,
    trigger_config := { ty := some "interval", interval_minutes := some 60 } }

/-- State holding only the interval workflow. -/
def intervalState : EngineState := { workflows := [intervalWorkflow], tasks := [] }

/-- Claim C4 counterexample: with a clock that advances one minute
between `utcnow()` reads, the stored values are `last_execution = 0` and
`next_execution = 61`, which is not `last_execution + 60`. -/
theorem interval_next_execution_cex :
    ((executeWorkflow okExec (fun i => i) intervalState 1).1.workflows.map
      (fun w => (w.last_execution, w.next_execution))) = [(some 0, some 61)]
    ∧ some (61 : Nat) ≠ some ((0 : Nat) + 60) := by
  decide

/-- Witness for the amended claim-C4 theorem at a concrete input with a
constant clock, where the two reads coincide and the 60-minute relation
holds exactly. -/
theorem interval_next_execution_holds :
    (advanceWorkflow intervalWorkflow (fun _ => 5)).next_execution = some (5 + 60) :=
  (interval_next_execution okExec (fun _ => 5) intervalState 1 intervalWorkflow
    rfl rfl rfl rfl rfl).2.2.2.2 rfl

/-- Concrete instance for claim C5: an active scheduled report due at
time 10. -/
def weeklyReport : ScheduledReport :=
  { id := 1, report_type := "weekly", report_format := "pdf",
    schedule_type := "interval", interval_hours := some 24,
    next_generation := some 0 }

/-- Claim C5: the due-scheduled-reports step builds exactly the claimed
unlinked task (`workflow_id` null, kind generate_report, config copied
from the report) and updates `last_generated`, `generation_count` and
`next_generation` — but the built row violates the NOT NULL constraint
declared on `workflow_id` (automation.py line 89, `nullable=False`), so
persisting it must fail against the declared schema: the code
contradicts itself, and the nullable reference of the spec is the
evident intent. -/
theorem scheduled_report_task_violates_schema :
    (checkScheduledReports [weeklyReport] 10).2.map Task.workflow_id = [none]
    ∧ (checkScheduledReports [weeklyReport] 10).2.map Task.action_type
        = [.generate_report]
    ∧ (checkScheduledReports [weeklyReport] 10).2.map Task.action_config
        = [reportTaskConfig weeklyReport]
    ∧ ((checkScheduledReports [weeklyReport] 10).1.map
        (fun r => (r.last_generated, r.generation_count, r.next_generation)))
        = [(some 10, 1, some (10 + 60 * 24))]
    ∧ (checkScheduledReports [weeklyReport] 10).2.map taskRowSatisfiesSchema
        = [false]
    ∧ workflowIdColumnNullable = false :=
  ⟨rfl, rfl, rfl, rfl, rfl, rfl⟩

/-- An all-successful tick stages and then commits every step's writes
in step order. -/
lemma runTickGo_all_ok {α : Type} (steps : List (Except String (List α))) :
    ∀ (committed staged : List α), (∀ s ∈ steps, ∃ ws, s = .ok ws) →
      runTickGo steps committed staged =
        committed ++ staged ++ (steps.filterMap (fun s => match s with
          | .ok ws => some ws
          | .error _ => none)).flatten := by
  induction steps with
  | nil =>
    intro committed staged _
    simp [runTickGo]
  | cons s rest ih =>
    intro committed staged hok
    rcases hok s (List.mem_cons_self s rest) with ⟨ws, rfl⟩
    have hrest : ∀ x ∈ rest, ∃ w, x = .ok w :=
      fun x hx => hok x (List.mem_cons_of_mem _ hx)
    simp only [runTickGo]
    rw [ih committed (staged ++ ws) hrest]
    simp [List.append_assoc]

/-- A tick containing a failing step commits nothing through the tick
session. -/
lemma runTickGo_has_error {α : Type} (steps : List (Except String (List α))) :
    ∀ (committed staged : List α) (msg : String), Except.error msg ∈ steps →
      runTickGo steps committed staged = committed := by
  induction steps with
  | nil =>
    intro _ _ _ h
    cases h
  | cons s rest ih =>
    intro committed staged msg hmem
    cases s with
    | ok ws =>
      cases hmem with
      | tail _ h => exact ih committed (staged ++ ws) msg h
    | error m => rfl

/-- Claim C6 (amended): the five scheduler steps of one tick share a
single session committed once at the end of the tick; with no failing
step the committed result is exactly the per-step union, but any
uncaught step exception rolls back the entire tick's staged writes (and
the remaining steps never run), rather than committing the other steps
independently. -/
theorem tick_single_transaction {α : Type} (steps : List (Except String (List α)))
    (committed : List α) :
    ((∀ s ∈ steps, ∃ ws, s = .ok ws) →
        runTick steps committed = runTickPerStep steps committed)
    ∧ (∀ msg, Except.error msg ∈ steps → runTick steps committed = committed) := by
  constructor
  · intro hok
    rw [runTick, runTickGo_all_ok steps committed [] hok, runTickPerStep]
    simp
  · intro msg hmem
    exact runTickGo_has_error steps committed [] msg hmem

/-- Claim C6 counterexample: a five-step tick whose third step raises an
infrastructure error.  The code commits nothing from that tick — the
writes of the non-failing steps 1, 2, 4 and 5 are lost with it — whereas
per-step transactions would have committed them. -/
theorem tick_single_transaction_cex :
    runTick [.ok [1], .ok [2], .error "db down", .ok [4], .ok [5]]
        ([0] : List Nat) = [0]
    ∧ runTickPerStep [.ok [1], .ok [2], .error "db down", .ok [4], .ok [5]]
        ([0] : List Nat) = [0, 1, 2, 4, 5]
    ∧ ([0] : List Nat) ≠ [0, 1, 2, 4, 5] := by
  decide

/-- Witness for the amended claim-C6 theorem at concrete inputs: an
all-ok tick commits the union of the steps' writes, a tick with a
failing step commits nothing. -/
theorem tick_single_transaction_holds :
    runTick ([.ok [1], .ok [2]] : List (Except String (List Nat))) [0]
        = runTickPerStep ([.ok [1], .ok [2]] : List (Except String (List Nat))) [0]
    ∧ runTick ([.error "down"] : List (Except String (List Nat))) [0] = [0] := by
  constructor
  · refine (tick_single_transaction
        ([.ok [1], .ok [2]] : List (Except String (List Nat))) [0]).1 ?_
    intro s hs
    cases hs with
    | head => exact ⟨[1], rfl⟩
    | tail _ h =>
      cases h with
      | head => exact ⟨[2], rfl⟩
      | tail _ h => cases h
  · exact (tick_single_transaction
        ([.error "down"] : List (Except String (List Nat))) [0]).2 "down"
        (List.mem_singleton.mpr rfl)

/-- The i-th output of a task batch is `_execute_task` applied to the
i-th input (at some clock cursor). -/
lemma executeTasksFrom_get (e : Executor) (c : Nat → Nat) :
    ∀ (ts : List Task) (k i : Nat) (h : i < ts.length),
      ∃ j, (executeTasksFrom e c k ts).get
          ⟨i, by rw [executeTasksFrom_length]; exact h⟩
        = (executeTask e c j (ts.get ⟨i, h⟩)).1 := by
  intro ts
  induction ts with
  | nil =>
    intro k i h
    cases h
  | cons t rest ih =>
    intro k i h
    cases i with
    | zero => exact ⟨k, rfl⟩
    | succ n =>
      rcases ih (executeTask e c k t).2 n (Nat.lt_of_succ_lt_succ h) with ⟨j, hj⟩
      exact ⟨j, hj⟩

/-- Claim C7 (amended): the pending-task step selects at most 10 rows,
each Pending and due, taken as a sublist of the table in its underlying
row order (the query has no ORDER BY, so no sort by `scheduled_at` is
guaranteed), and runs `_execute_task` on each selected row in that
order. -/
theorem pending_selection_bounded
    (e : Executor) (c : Nat → Nat) (k : Nat) (table : List Task) (now : Nat) :
    (selectPendingTasks table now).length ≤ 10
    ∧ (∀ t ∈ selectPendingTasks table now,
        t.status = .pending ∧ t.scheduled_at ≤ now)
    ∧ (selectPendingTasks table now).Sublist table
    ∧ (processPendingTasks e c k table now).length
        = (selectPendingTasks table now).length
    ∧ ∀ i (h : i < (selectPendingTasks table now).length),
        ∃ j, (processPendingTasks e c k table now).get
            ⟨i, by simpa [processPendingTasks, executeTasksFrom_length] using h⟩
          = (executeTask e c j ((selectPendingTasks table now).get ⟨i, h⟩)).1 := by
  refine ⟨List.length_take_le 10 _, ?_, ?_, ?_, ?_⟩
  · intro t ht
    have hmem : t ∈ table.filter (pendingEligible now) :=
      List.mem_of_mem_take ht
    have hp := List.of_mem_filter hmem
    simp only [pendingEligible, Bool.and_eq_true, beq_iff_eq,
      decide_eq_true_eq] at hp
    exact hp
  · exact (List.take_sublist 10 _).trans (List.filter_sublist table)
  · exact executeTasksFrom_length e c k _
  · intro i h
    exact executeTasksFrom_get e c _ k i h

/-- A Pending task row scheduled at `s` (claim-C7 instance). -/
def pendingRow (s : Nat) : Task :=
  { workflow_id := none, action_type := .send_notification,
    action_config := .null, scheduled_at := s }

/-- Eleven due Pending rows whose earliest-scheduled member sits last in
row order (claim-C7 instance). -/
def pendingTable : List Task :=
  [pendingRow 1, pendingRow 2, pendingRow 3, pendingRow 4, pendingRow 5,
   pendingRow 6, pendingRow 7, pendingRow 8, pendingRow 9, pendingRow 10,
   pendingRow 0]

/-- Claim C7 counterexample: with eleven eligible tasks, the query takes
the first ten in row order; the earliest-scheduled task (scheduled_at 0)
is not selected, so the selection is neither the ten earliest nor
ordered by `scheduled_at` over the eligible set. -/
theorem pending_selection_bounded_cex :
    ((pendingTable.filter (pendingEligible 100)).map Task.scheduled_at)
        = [1, 2, 3, 4, 5, 6, 7, 8, 9, 10, 0]
    ∧ ((selectPendingTasks pendingTable 100).map Task.scheduled_at)
        = [1, 2, 3, 4, 5, 6, 7, 8, 9, 10]
    ∧ ((selectPendingTasks pendingTable 100).map Task.scheduled_at)
        ≠ [0, 1, 2, 3, 4, 5, 6, 7, 8, 9] := by
  decide

/-- Witness for the amended claim-C7 theorem at a concrete input. -/
theorem pending_selection_bounded_holds :
    (pendingRow 1).status = .pending ∧ (pendingRow 1).scheduled_at ≤ 100 :=
  (pending_selection_bounded okExec (fun i => i) 0 [pendingRow 1] 100).2.1
    (pendingRow 1) (List.mem_singleton.mpr rfl)

/-- Membership in a priority insertion is membership in the parts. -/
lemma mem_insertByPriority (r y : AutomationRule) (l : List AutomationRule) :
    y ∈ insertByPriority r l ↔ y = r ∨ y ∈ l := by
  induction l with
  | nil => simp [insertByPriority]
  | cons x xs ih =>
    by_cases hx : x.priority < r.priority
    · rw [show insertByPriority r (x :: xs)
          = if x.priority < r.priority then x :: insertByPriority r xs
            else r :: x :: xs from rfl, if_pos hx]
      simp [ih]
      tauto
    · rw [show insertByPriority r (x :: xs)
          = if x.priority < r.priority then x :: insertByPriority r xs
            else r :: x :: xs from rfl, if_neg hx]
      simp

/-- Priority insertion preserves ascending-priority ordering. -/
lemma insertByPriority_pairwise (r : AutomationRule) (l : List AutomationRule)
    (h : l.Pairwise (fun a b => a.priority ≤ b.priority)) :
    (insertByPriority r l).Pairwise (fun a b => a.priority ≤ b.priority) := by
  induction l with
  | nil => simp [insertByPriority]
  | cons x xs ih =>
    rcases List.pairwise_cons.mp h with ⟨hx, hxs⟩
    by_cases hle : x.priority < r.priority
    · rw [show insertByPriority r (x :: xs)
          = if x.priority < r.priority then x :: insertByPriority r xs
            else r :: x :: xs from rfl, if_pos hle]
      refine List.pairwise_cons.mpr ⟨?_, ih hxs⟩
      intro y hy
      rcases (mem_insertByPriority r y xs).mp hy with rfl | hy
      · exact le_of_lt hle
      · exact hx y hy
    · rw [show insertByPriority r (x :: xs)
          = if x.priority < r.priority then x :: insertByPriority r xs
            else r :: x :: xs from rfl, if_neg hle]
      refine List.pairwise_cons.mpr ⟨?_, h⟩
      intro y hy
      have hrx : r.priority ≤ x.priority := le_of_not_lt hle
      rcases List.mem_cons.mp hy with rfl | hy
      · exact hrx
      · exact hrx.trans (hx y hy)

/-- The rule query's result is in ascending priority order. -/
lemma orderByPriority_pairwise (l : List AutomationRule) :
    (orderByPriority l).Pairwise (fun a b => a.priority ≤ b.priority) := by
  induction l with
  | nil => simp [orderByPriority]
  | cons r rs ih => exact insertByPriority_pairwise r _ ih

/-- A rule with zero cooldown always passes `_should_trigger`. -/
lemma shouldTrigger_no_cooldown (r : AutomationRule)
    (h : r.cooldown_minutes = 0) (now : Nat) : shouldTrigger r now = true := by
  cases hl : r.last_triggered <;> simp [shouldTrigger, hl, h]

/-- Claim C8 (amended): `trigger_event` processes the matching Active
rules in ascending `priority` order — equal priorities stay in the
store's underlying row order, there is no identity tie-break in the
query — and for two matching zero-cooldown rules of priorities 1 and 2
(in either row order) the priority-1 rule is fired first: its
`last_triggered` takes the earlier clock read `c 0`, the priority-2
rule's takes the later read `c 1`, and the returned list is in that
order. -/
theorem priority_order_fired (c : Nat → Nat) (rules : List AutomationRule)
    (ev : String) :
    (matchingRules rules ev).Pairwise (fun a b => a.priority ≤ b.priority)
    ∧ (∀ r1 r2 : AutomationRule, r1.priority = 1 → r2.priority = 2 →
        r1.is_active = true → r2.is_active = true →
        r1.trigger_event = ev → r2.trigger_event = ev →
        r1.cooldown_minutes = 0 → r2.cooldown_minutes = 0 →
        triggerEvent c [r1, r2] ev = [executeRule r1 (c 0), executeRule r2 (c 1)]
        ∧ triggerEvent c [r2, r1] ev
            = [executeRule r1 (c 0), executeRule r2 (c 1)]) := by
  constructor
  · exact orderByPriority_pairwise _
  · intro r1 r2 h1 h2 ha1 ha2 he1 he2 hc1 hc2
    have hf12 : [r1, r2].filter (fun r => r.is_active && r.trigger_event == ev)
        = [r1, r2] := by
      simp [List.filter, ha1, ha2, he1, he2]
    have hf21 : [r2, r1].filter (fun r => r.is_active && r.trigger_event == ev)
        = [r2, r1] := by
      simp [List.filter, ha1, ha2, he1, he2]
    have hnot : ¬ r2.priority < r1.priority := by
      rw [h1, h2]
      decide
    have hyes : r1.priority < r2.priority := by
      rw [h1, h2]
      decide
    have hs12 : orderByPriority [r1, r2] = [r1, r2] := by
      show insertByPriority r1 (insertByPriority r2 (orderByPriority [])) = [r1, r2]
      show insertByPriority r1 [r2] = [r1, r2]
      show (if r2.priority < r1.priority then r2 :: insertByPriority r1 []
            else r1 :: r2 :: []) = [r1, r2]
      rw [if_neg hnot]
    have hs21 : orderByPriority [r2, r1] = [r1, r2] := by
      show insertByPriority r2 [r1] = [r1, r2]
      show (if r1.priority < r2.priority then r1 :: insertByPriority r2 []
            else r2 :: r1 :: []) = [r1, r2]
      rw [if_pos hyes]
      rfl
    have hfire : fireRules c 0 [r1, r2]
        = [executeRule r1 (c 0), executeRule r2 (c 1)] := by
      simp [fireRules, shouldTrigger_no_cooldown r1 hc1,
        shouldTrigger_no_cooldown r2 hc2]
    constructor
    · show fireRules c 0 (matchingRules [r1, r2] ev) = _
      rw [matchingRules, hf12, hs12, hfire]
    · show fireRules c 0 (matchingRules [r2, r1] ev) = _
      rw [matchingRules, hf21, hs21, hfire]

/-- An equal-priority rule with id 1 (claim-C8 instance). -/
def tieRuleA : AutomationRule :=
  { id := 1, trigger_event := "new_review", priority := 5 }

/-- An equal-priority rule with id 2 (claim-C8 instance). -/
def tieRuleB : AutomationRule :=
  { id := 2, trigger_event := "new_review", priority := 5 }

/-- Claim C8 counterexample: two equal-priority matching rules fire in
whichever order the store's row order presents them — ids [2, 1] for one
table order and [1, 2] for the other — so ties are not broken
deterministically by rule identity. -/
theorem priority_order_fired_cex :
    ((triggerEvent (fun i => i) [tieRuleB, tieRuleA] "new_review").map
        AutomationRule.id) = [2, 1]
    ∧ ((triggerEvent (fun i => i) [tieRuleA, tieRuleB] "new_review").map
        AutomationRule.id) = [1, 2]
    ∧ ([2, 1] : List Nat) ≠ [1, 2] := by
  decide

/-- A priority-1 matching rule (claim-C8 instance). -/
def prioRule1 : AutomationRule :=
  { id := 1, trigger_event := "new_review", priority := 1 }

/-- A priority-2 matching rule (claim-C8 instance). -/
def prioRule2 : AutomationRule :=
  { id := 2, trigger_event := "new_review", priority := 2 }

/-- Witness for the amended claim-C8 theorem at a concrete input: even
stored in the order [priority 2, priority 1], the priority-1 rule fires
first with the earlier clock read. -/
theorem priority_order_fired_holds :
    triggerEvent (fun i => i) [prioRule2, prioRule1] "new_review"
      = [executeRule prioRule1 0, executeRule prioRule2 1] :=
  ((priority_order_fired (fun i => i) [prioRule2, prioRule1] "new_review").2
    prioRule1 prioRule2 rfl rfl rfl rfl rfl rfl rfl rfl).2

/-- Claim C9 (amended): a negative_sentiment alert with configured
threshold `thr` fires iff `thr <= negativeCount / totalCount` over the
24-hour window; with an empty window the ratio is taken as 0, so the
rule does not fire for any POSITIVE threshold (in particular the default
0.3) — but a threshold of 0 or less still fires on an empty window (see
the counterexample). -/
theorem negative_sentiment_threshold
    (rule : AlertRule) (reviews : List Review) (now : Int) (thr : ℚ)
    (hm : rule.metric_type = "negative_sentiment")
    (ht : rule.threshold_config.negative_ratio_threshold = some thr) :
    (0 < (reviewsSince reviews (now - 24 * 60)).length →
      (evaluateAlertRule rule reviews now = true ↔
        thr ≤ (((reviewsSince reviews (now - 24 * 60)).filter
            (fun r => r.sentiment == "Negative")).length : ℚ) /
          ((reviewsSince reviews (now - 24 * 60)).length : ℚ)))
    ∧ ((reviewsSince reviews (now - 24 * 60)).length = 0 → 0 < thr →
        evaluateAlertRule rule reviews now = false) := by
  have he : evaluateAlertRule rule reviews now
      = decide (thr ≤ recentNegativeRatio reviews now 24) := by
    simp only [evaluateAlertRule]
    rw [hm, ht]
    rw [if_neg (by decide), if_neg (by decide), if_pos rfl]
    rfl
  constructor
  · intro h0
    have hr : recentNegativeRatio reviews now 24
        = (((reviewsSince reviews (now - 24 * 60)).filter
            (fun r => r.sentiment == "Negative")).length : ℚ) /
          ((reviewsSince reviews (now - 24 * 60)).length : ℚ) := by
      show (if (reviewsSince reviews (now - 24 * 60)).length = 0 then (0 : ℚ)
            else (((reviewsSince reviews (now - 24 * 60)).filter
                (fun r => r.sentiment == "Negative")).length : ℚ) /
              ((reviewsSince reviews (now - 24 * 60)).length : ℚ)) = _
      rw [if_neg (by omega)]
    rw [he, hr, decide_eq_true_iff]
  · intro h0 hpos
    have hr0 : recentNegativeRatio reviews now 24 = 0 := by
      show (if (reviewsSince reviews (now - 24 * 60)).length = 0 then (0 : ℚ)
            else (((reviewsSince reviews (now - 24 * 60)).filter
                (fun r => r.sentiment == "Negative")).length : ℚ) /
              ((reviewsSince reviews (now - 24 * 60)).length : ℚ)) = 0
      rw [if_pos h0]
    rw [he, hr0]
    exact decide_eq_false (not_le.mpr hpos)

/-- A negative_sentiment alert rule whose configured threshold is 0
(claim-C9 instance). -/
def zeroThresholdRule : AlertRule :=
  { id := 1, metric_type := "negative_sentiment",
    threshold_config := { negative_ratio_threshold := some 0 } }

/-- Claim C9 counterexample: with no reviews in the last 24 hours the
ratio is 0, yet a configured threshold of 0 still fires (0 >= 0), so
"never fires when totalCount = 0, for every threshold" is false. -/
theorem negative_sentiment_threshold_cex :
    (reviewsSince ([] : List Review) ((0 : Int) - 24 * 60)).length = 0
    ∧ evaluateAlertRule zeroThresholdRule [] 0 = true := by
  constructor
  · decide
  · decide

/-- A negative_sentiment alert rule with threshold one half (claim-C9
instance). -/
def halfThresholdRule : AlertRule :=
  { id := 2, metric_type := "negative_sentiment",
    threshold_config := { negative_ratio_threshold := some (1/2) } }

/-- Two reviews inside the 24-hour window before minute 2000, one of
them Negative (claim-C9 instance). -/
def sampleReviews : List Review :=
  [{ created_at := 1500, sentiment := "Negative", rating := 1 },
   { created_at := 1600, sentiment := "Positive", rating := 5 }]

/-- Witness for the amended claim-C9 theorem at a concrete input: one
Negative review out of two in the window meets the one-half threshold
and the rule fires. -/
theorem negative_sentiment_threshold_holds :
    evaluateAlertRule halfThresholdRule sampleReviews 2000 = true :=
  ((negative_sentiment_threshold halfThresholdRule sampleReviews 2000 (1/2)
      rfl rfl).1 (by decide)).mpr (by
    have h1 : ((reviewsSince sampleReviews (2000 - 24 * 60)).filter
        (fun r => r.sentiment == "Negative")).length = 1 := rfl
    have h2 : (reviewsSince sampleReviews (2000 - 24 * 60)).length = 2 := rfl
    rw [h1, h2]
    norm_num)

end ReviewAssist
